import Mathlib

/-!
Shallow embedding of `src/bgp/bgp_path.cc` (BgpPath: path comparison,
peer ref counting, neighbor-AS predicate, flag rendering) together with
proofs about the spec's claims on these operations.

Machine integers (`uint32_t` path ids, local-pref, MED, AS numbers, ...)
are modelled as `Nat`: the comparator only ever reads and orders them, so
no overflow can occur. Pointers that are only tested for null and
dereferenced (`IPeer *peer_`) become `Option`; the attribute snapshot
becomes an immutable structure carrying exactly the accessors the code
reads.
-/

namespace ContrailBgp

/-- Modelled from the spec: the `PathSource` enum in `bgp_path.h` (not part of
the sources at hand), declared in the order `None, BGP_XMPP, ServiceChain,
StaticRoute, Aggregate, Local` (spec section 3, data model). -/
inductive PathSource where
  | None
  | BGP_XMPP
  | ServiceChain
  | StaticRoute
  | Aggregate
  | Local
deriving DecidableEq

/-- Modelled from the spec: numeric tag of each `PathSource` value, following
the declared enum order (a C++ enum without explicit values numbers its
enumerators 0, 1, 2, ... in declaration order). -/
def PathSource.toNat : PathSource → Nat
  | PathSource.None => 0
  | PathSource.BGP_XMPP => 1
  | PathSource.ServiceChain => 2
  | PathSource.StaticRoute => 3
  | PathSource.Aggregate => 4
  | PathSource.Local => 5

/-- Modelled from the spec: the internal/external session flag of a peer
(`BgpProto::IBGP` vs `BgpProto::EBGP`). -/
inductive PeerType where
  | IBGP
  | EBGP
deriving DecidableEq, BEq

/-- Modelled from the spec: the peer descriptor (`IPeer`) as read by
`bgp_path.cc`: transport kind (`IsXmppPeer`), session flag (`PeerType`),
router identifier (`bgp_identifier`), and the comparable session key that is
present exactly when the peer is a concrete `BgpPeer` (the
`dynamic_cast<const BgpPeer *>` in `PathCompare` succeeds). -/
structure IPeer where
  isXmppPeer : Bool
  peerType : PeerType
  bgp_identifier : Nat
  peer_key : Option Nat
deriving DecidableEq

/-- Modelled from the spec: the immutable attribute snapshot (`BgpAttr`),
restricted to the accessors `bgp_path.cc` reads.
`communityContainsLlgrStale` folds the two-step read
`community() && community()->ContainsValue(CommunityType::LlgrStale)` into
one boolean; `neighbor_as` uses 0 for "absent" (the code tests it for
truthiness); `origin` is the numeric value of the origin enum. -/
structure BgpAttr where
  local_pref : Nat
  sequence_number : Nat
  origin : Nat
  as_path_count : Nat
  med : Nat
  neighbor_as : Nat
  communityContainsLlgrStale : Bool
  origin_vn_path : Bool
  originator_id : Nat
  cluster_list_length : Nat
deriving DecidableEq

/-- Path flag bit `AsPathLooped` (declaration order bit 0, per spec). -/
def AsPathLooped : Nat := 1
/-- Path flag bit `NoNeighborAs`. -/
def NoNeighborAs : Nat := 2
/-- Path flag bit `Stale`. -/
def Stale : Nat := 4
/-- Path flag bit `NoTunnelEncap`. -/
def NoTunnelEncap : Nat := 8
/-- Path flag bit `OriginatorIdLooped`. -/
def OriginatorIdLooped : Nat := 16
/-- Path flag bit `ResolveNexthop`. -/
def ResolveNexthop : Nat := 32
/-- Path flag bit `ResolvedPath`. -/
def ResolvedPath : Nat := 64
/-- Path flag bit `RoutingPolicyReject`. -/
def RoutingPolicyReject : Nat := 128
/-- Path flag bit `LlgrStale` (declaration order bit 8, per spec). -/
def LlgrStale : Nat := 256

/-- The `BgpPath` entity of `bgp_path.cc`: optional peer, 32-bit path id,
source classification, attribute snapshot, flag bitset.  `feasible` is the
result of `IsFeasible()` (an external feasibility policy per the spec);
`replicated` is the result of the virtual `IsReplicated()` (false for a
primary `BgpPath`, true for a `BgpSecondaryPath`). -/
structure BgpPath where
  peer : Option IPeer
  path_id : Nat
  source : PathSource
  attr : BgpAttr
  flags : Nat
  feasible : Bool
  replicated : Bool
deriving DecidableEq

/-- Modelled from the spec: `IsFeasible()` exposes the external feasibility
policy as a boolean view of the path. -/
def BgpPath.IsFeasible (p : BgpPath) : Bool := p.feasible

/-- Modelled from the spec: `IsReplicated()` distinguishes a replicated
(secondary) path from a primary one. -/
def BgpPath.IsReplicated (p : BgpPath) : Bool := p.replicated

/-- Modelled from the spec: `IsLlgrStale()` tests the `LlgrStale` flag bit. -/
def BgpPath.IsLlgrStale (p : BgpPath) : Bool := p.flags &&& LlgrStale != 0

/-- Modelled from the spec: the `KEY_COMPARE(x, y)` tie-break macro: return
`-1` when `x < y`, `1` when `y < x`, otherwise fall through to the next
criterion (`none`). -/
def keyCompare (x y : Nat) : Option Int :=
  if x < y then some (-1) else if y < x then some 1 else none

/-- `KEY_COMPARE` applied to two C++ booleans (`false < true`). -/
def keyCompareBool (x y : Bool) : Option Int := keyCompare x.toNat y.toNat

/-- The `BOOL_COMPARE(CondA, CondB)` macro of `bgp_path.cc`: "true is
better" - `-1` when only `CondA` holds, `1` when only `CondB` holds,
fall through when they agree. -/
def boolCompare (a b : Bool) : Option Int :=
  if a then (if b then none else some (-1))
  else (if b then some 1 else none)

/-- Early-return sequencing of two tie-break stages: the first stage that
produces a result decides. -/
def cascade (a b : Option Int) : Option Int :=
  match a with
  | some v => some v
  | none => b

/-- Negation lifted to a fall-through comparison result. -/
def OptNeg (o : Option Int) : Option Int := o.map fun v => -v

/-- The local `llgr_stale` computation of `PathCompare`: community contains
the LLGR-stale marker, or the path's `LlgrStale` flag is set. -/
def pathLlgrStale (p : BgpPath) : Bool :=
  p.attr.communityContainsLlgrStale || p.IsLlgrStale

/-- Rules 1-7 of `PathCompare` (feasibility, local-pref, sequence number,
LLGR-stale, conditional AS-path length, origin, gated MED): the stage that
runs before the `allow_ecmp` short-circuit. -/
def ecmpCompare (p r : BgpPath) : Option Int :=
  cascade (keyCompareBool r.IsFeasible p.IsFeasible)
   (cascade (keyCompare r.attr.local_pref p.attr.local_pref)
    (cascade (keyCompare r.attr.sequence_number p.attr.sequence_number)
     (cascade (keyCompareBool (pathLlgrStale p) (pathLlgrStale r))
      (cascade (if !p.attr.origin_vn_path || !r.attr.origin_vn_path then
                  keyCompare p.attr.as_path_count r.attr.as_path_count
                else none)
       (cascade (keyCompare p.attr.origin r.attr.origin)
        (if p.attr.neighbor_as != 0 &&
             p.attr.neighbor_as == r.attr.neighbor_as then
           keyCompare p.attr.med r.attr.med
         else none))))))

/-- The deferred AS-path length comparison for service-chain paths
(both carry `origin_vn_path`), performed only after the ECMP check. -/
def scDeferredAsPath (p r : BgpPath) : Option Int :=
  if p.attr.origin_vn_path && r.attr.origin_vn_path then
    keyCompare p.attr.as_path_count r.attr.as_path_count
  else none

/-- The router-identifier used at the "lower router id" step: the attribute
snapshot's originator id when non-zero, else the peer's own identifier. -/
def pathRouterId (p : BgpPath) (q : IPeer) : Nat :=
  if p.attr.originator_id != 0 then p.attr.originator_id else q.bgp_identifier

/-- The final session-key tie-break: compares the peers' keys only when both
peers expose one (both `dynamic_cast`s to `BgpPeer` succeed). -/
def peerKeyCompare (a b : IPeer) : Option Int :=
  match a.peer_key, b.peer_key with
  | some x, some y => keyCompare x y
  | _, _ => none

/-- Rules 13-18 of `PathCompare` as a fall-through chain, reached when both
paths have a peer: XMPP transport, path id, EBGP-over-IBGP, router/originator
id, cluster list length, session key. -/
def peerChain (p r : BgpPath) (pq rq : IPeer) : Option Int :=
  cascade (boolCompare pq.isXmppPeer rq.isXmppPeer)
   (cascade (keyCompare p.path_id r.path_id)
    (cascade (keyCompareBool (pq.peerType == PeerType.IBGP)
                             (rq.peerType == PeerType.IBGP))
     (cascade (keyCompare (pathRouterId p pq) (pathRouterId r rq))
      (cascade (keyCompare p.attr.cluster_list_length
                           r.attr.cluster_list_length)
       (peerKeyCompare pq rq)))))

/-- Rules 13-19: the peer-based chain followed by the final `return 0`. -/
def peerTail (p r : BgpPath) (pq rq : IPeer) : Int :=
  (peerChain p r pq rq).getD 0

/-- Rules 9-11 of `PathCompare`: deferred service-chain AS-path length,
locally-generated preference (`BOOL_COMPARE(peer_ == NULL, ...)`), and the
source classification comparison `KEY_COMPARE(rhs.GetSource(), GetSource())`. -/
def midCompare (p r : BgpPath) : Option Int :=
  cascade (scDeferredAsPath p r)
   (cascade (boolCompare p.peer.isNone r.peer.isNone)
    (keyCompare (PathSource.toNat r.source) (PathSource.toNat p.source)))

/-- `BgpPath::PathCompare(rhs, allow_ecmp)` with the null-pointer accesses
made explicit: `none` means the control flow would dereference an absent
peer (which the real code would crash on), `some v` is the returned value.
The structure mirrors the source: rules 1-7, the `allow_ecmp` short-circuit,
rules 9-11, the both-local bail-out on `path_id`, and the peer-based tail. -/
def PathCompareImpl (p r : BgpPath) (allow_ecmp : Bool) : Option Int :=
  match ecmpCompare p r with
  | some v => some v
  | none =>
    if allow_ecmp then some 0
    else
      match midCompare p r with
      | some v => some v
      | none =>
        match p.peer, r.peer with
        | Option.none, Option.none =>
            some ((keyCompare p.path_id r.path_id).getD 0)
        | some pq, some rq => some (peerTail p r pq rq)
        | _, _ => none

/-- `BgpPath::PathCompare` as the total integer-valued comparator. -/
def PathCompare (p r : BgpPath) (allow_ecmp : Bool) : Int :=
  (PathCompareImpl p r allow_ecmp).getD 0

/-! ### Basic facts about the comparison primitives -/

theorem keyCompare_eq_none {x y : Nat} : keyCompare x y = none ↔ x = y := by
  unfold keyCompare
  split_ifs with h1 h2 <;> simp <;> omega

theorem keyCompare_self (x : Nat) : keyCompare x x = none :=
  keyCompare_eq_none.mpr rfl

theorem keyCompare_lt {x y : Nat} (h : x < y) : keyCompare x y = some (-1) := by
  unfold keyCompare
  rw [if_pos h]

theorem keyCompare_gt {x y : Nat} (h : y < x) : keyCompare x y = some 1 := by
  unfold keyCompare
  rw [if_neg (by omega), if_pos h]

theorem keyCompare_swap (x y : Nat) : keyCompare y x = OptNeg (keyCompare x y) := by
  unfold keyCompare OptNeg
  rcases Nat.lt_trichotomy x y with h | h | h
  · simp [h, Nat.lt_asymm h]
  · subst h
    simp
  · simp [h, Nat.lt_asymm h]

theorem keyCompare_ne_zero {x y : Nat} {v : Int} (h : keyCompare x y = some v) :
    v ≠ 0 := by
  unfold keyCompare at h
  split_ifs at h <;> simp_all <;> omega

theorem keyCompareBool_eq_none {x y : Bool} : keyCompareBool x y = none ↔ x = y := by
  cases x <;> cases y <;> simp [keyCompareBool, keyCompare]

theorem keyCompareBool_self (x : Bool) : keyCompareBool x x = none :=
  keyCompareBool_eq_none.mpr rfl

theorem keyCompareBool_swap (x y : Bool) :
    keyCompareBool y x = OptNeg (keyCompareBool x y) :=
  keyCompare_swap x.toNat y.toNat

theorem keyCompareBool_ne_zero {x y : Bool} {v : Int}
    (h : keyCompareBool x y = some v) : v ≠ 0 :=
  keyCompare_ne_zero h

theorem boolCompare_eq_none {a b : Bool} : boolCompare a b = none ↔ a = b := by
  cases a <;> cases b <;> simp [boolCompare]

theorem boolCompare_self (a : Bool) : boolCompare a a = none :=
  boolCompare_eq_none.mpr rfl

theorem boolCompare_swap (a b : Bool) :
    boolCompare b a = OptNeg (boolCompare a b) := by
  cases a <;> cases b <;> rfl

theorem boolCompare_ne_zero {a b : Bool} {v : Int}
    (h : boolCompare a b = some v) : v ≠ 0 := by
  cases a <;> cases b <;> simp [boolCompare] at h <;> omega

theorem cascade_eq_none {a b : Option Int} :
    cascade a b = none ↔ a = none ∧ b = none := by
  cases a <;> simp [cascade]

theorem cascade_none (b : Option Int) : cascade none b = b := rfl

theorem cascade_some (v : Int) (b : Option Int) :
    cascade (some v) b = some v := rfl

theorem OptNeg_none : OptNeg none = none := rfl

theorem OptNeg_some (v : Int) : OptNeg (some v) = some (-v) := rfl

theorem OptNeg_cascade (a b : Option Int) :
    OptNeg (cascade a b) = cascade (OptNeg a) (OptNeg b) := by
  cases a <;> rfl

theorem OptNeg_getD (o : Option Int) : (OptNeg o).getD 0 = -(o.getD 0) := by
  cases o <;> simp [OptNeg]

theorem OptNeg_ite (c : Prop) [Decidable c] (a : Option Int) :
    OptNeg (if c then a else none) = if c then OptNeg a else none := by
  split <;> rfl

theorem cascade_ne_zero {a b : Option Int}
    (ha : ∀ v : Int, a = some v → v ≠ 0) (hb : ∀ v : Int, b = some v → v ≠ 0) :
    ∀ v : Int, cascade a b = some v → v ≠ 0 := by
  intro v h
  cases a with
  | none => exact hb v h
  | some w =>
    rw [cascade_some] at h
    exact ha v h

theorem ite_ne_zero {c : Prop} [Decidable c] {a : Option Int}
    (ha : ∀ v : Int, a = some v → v ≠ 0) :
    ∀ v : Int, (if c then a else none) = some v → v ≠ 0 := by
  intro v h
  split at h
  · exact ha v h
  · simp at h

/-! ### Antisymmetry of the comparison cascade -/

theorem medCond_comm (x y : Nat) :
    ((x != 0) && (x == y)) = ((y != 0) && (y == x)) := by
  by_cases h : x = y
  · subst h
    rfl
  · have h1 : (x == y) = false := by simp [h]
    have h2 : (y == x) = false := by
      simp only [beq_eq_false_iff_ne]
      exact fun hyx => h hyx.symm
    rw [h1, h2, Bool.and_false, Bool.and_false]

theorem ecmpCompare_swap (p r : BgpPath) :
    ecmpCompare r p = OptNeg (ecmpCompare p r) := by
  unfold ecmpCompare
  simp only [OptNeg_cascade, OptNeg_ite, ← keyCompare_swap, ← keyCompareBool_swap]
  rw [Bool.or_comm, medCond_comm]

theorem scDeferredAsPath_swap (p r : BgpPath) :
    scDeferredAsPath r p = OptNeg (scDeferredAsPath p r) := by
  unfold scDeferredAsPath
  simp only [OptNeg_ite, ← keyCompare_swap]
  rw [Bool.and_comm]

theorem midCompare_swap (p r : BgpPath) :
    midCompare r p = OptNeg (midCompare p r) := by
  unfold midCompare
  rw [scDeferredAsPath_swap p r]
  simp only [OptNeg_cascade, ← boolCompare_swap, ← keyCompare_swap]

theorem peerKeyCompare_swap (a b : IPeer) :
    peerKeyCompare b a = OptNeg (peerKeyCompare a b) := by
  unfold peerKeyCompare
  rcases a.peer_key with _ | x <;> rcases b.peer_key with _ | y
  · rfl
  · rfl
  · rfl
  · exact keyCompare_swap x y

theorem peerChain_swap (p r : BgpPath) (pq rq : IPeer) :
    peerChain r p rq pq = OptNeg (peerChain p r pq rq) := by
  unfold peerChain
  rw [peerKeyCompare_swap pq rq]
  simp only [OptNeg_cascade, ← keyCompare_swap, ← keyCompareBool_swap,
    ← boolCompare_swap]

theorem peerTail_swap (p r : BgpPath) (pq rq : IPeer) :
    peerTail r p rq pq = -(peerTail p r pq rq) := by
  unfold peerTail
  rw [peerChain_swap p r pq rq, OptNeg_getD]

theorem PathCompareImpl_swap (p r : BgpPath) (e : Bool) :
    PathCompareImpl r p e = OptNeg (PathCompareImpl p r e) := by
  unfold PathCompareImpl
  rw [ecmpCompare_swap p r]
  cases hpre : ecmpCompare p r with
  | some v => rfl
  | none =>
    show (if e = true then some 0 else _) = OptNeg (if e = true then some 0 else _)
    cases e with
    | true => simp [OptNeg]
    | false =>
      simp only [Bool.false_eq_true, if_false]
      rw [midCompare_swap p r]
      cases hmid : midCompare p r with
      | some v => rfl
      | none =>
        show (match r.peer, p.peer with
              | Option.none, Option.none =>
                  some ((keyCompare r.path_id p.path_id).getD 0)
              | some rq', some pq' => some (peerTail r p rq' pq')
              | _, _ => none) = _
        rcases p.peer with _ | pq <;> rcases r.peer with _ | rq
        · rw [keyCompare_swap p.path_id r.path_id, OptNeg_getD]
          rfl
        · rfl
        · rfl
        · show some (peerTail r p rq pq) = OptNeg (some (peerTail p r pq rq))
          rw [peerTail_swap p r pq rq]
          rfl

/-- C1: `PathCompare` is antisymmetric (for every pair of paths and every
`allow_ecmp` value, `PathCompare a b e = -PathCompare b a e`) and reflexive
(`PathCompare a a false = 0`). -/
theorem pathCompare_antisym_and_refl :
    ∀ (a b : BgpPath) (e : Bool),
      PathCompare a b e = -(PathCompare b a e) ∧ PathCompare a a false = 0 := by
  have hanti : ∀ (a b : BgpPath) (e : Bool),
      PathCompare a b e = -(PathCompare b a e) := by
    intro a b e
    unfold PathCompare
    rw [PathCompareImpl_swap b a e, OptNeg_getD]
  intro a b e
  refine ⟨hanti a b e, ?_⟩
  have h := hanti a a false
  omega

/-! ### Peer-dereference safety -/

/-- C10: `PathCompare` never dereferences an absent peer: the explicit
crash-tracking evaluation `PathCompareImpl` always produces a value, because
a mixed comparison (exactly one path peerless) returns at the peer-presence
rule and a both-peerless comparison returns at the `path_id` fallback before
any peer access. -/
theorem pathCompareImpl_no_null_deref :
    ∀ (p r : BgpPath) (e : Bool), (PathCompareImpl p r e).isSome = true := by
  intro p r e
  unfold PathCompareImpl
  cases hpre : ecmpCompare p r with
  | some v => rfl
  | none =>
    cases e with
    | true => rfl
    | false =>
      simp only [Bool.false_eq_true, if_false]
      cases hmid : midCompare p r with
      | some v => rfl
      | none =>
        have hpeer : p.peer.isNone = r.peer.isNone := by
          have h1 := (cascade_eq_none.mp hmid).2
          have h2 := (cascade_eq_none.mp h1).1
          exact boolCompare_eq_none.mp h2
        rcases hp : p.peer with _ | pq <;> rcases hr : r.peer with _ | rq
        · rfl
        · rw [hp, hr] at hpeer
          simp at hpeer
        · rw [hp, hr] at hpeer
          simp at hpeer
        · rfl

/-! ### The ECMP stage -/

theorem pathCompare_true (p r : BgpPath) :
    PathCompare p r true = (ecmpCompare p r).getD 0 := by
  unfold PathCompare PathCompareImpl
  cases h : ecmpCompare p r <;> rfl

theorem ecmpCompare_ne_zero (p r : BgpPath) :
    ∀ v : Int, ecmpCompare p r = some v → v ≠ 0 := by
  unfold ecmpCompare
  refine cascade_ne_zero (fun v h => keyCompareBool_ne_zero h) ?_
  refine cascade_ne_zero (fun v h => keyCompare_ne_zero h) ?_
  refine cascade_ne_zero (fun v h => keyCompare_ne_zero h) ?_
  refine cascade_ne_zero (fun v h => keyCompareBool_ne_zero h) ?_
  refine cascade_ne_zero (ite_ne_zero (fun v h => keyCompare_ne_zero h)) ?_
  refine cascade_ne_zero (fun v h => keyCompare_ne_zero h) ?_
  exact ite_ne_zero (fun v h => keyCompare_ne_zero h)

theorem ecmpCompare_none_of_zero {p r : BgpPath}
    (h : PathCompare p r true = 0) : ecmpCompare p r = none := by
  cases he : ecmpCompare p r with
  | none => rfl
  | some v =>
    exfalso
    rw [pathCompare_true, he] at h
    simp at h
    exact ecmpCompare_ne_zero p r v he h

/-- C3: under `allow_ecmp = true`, `PathCompare` is decided entirely by
rules 1-7 (it equals the ECMP stage's verdict, defaulting to 0), and any two
paths it declares equal agree on feasibility, local-pref, sequence number,
LLGR-stale status, AS-path length (except when both carry the service-chain
origin marker), origin, and MED (when the neighbor-AS gate applies). -/
theorem pathCompare_ecmp_monotonic (p r : BgpPath) :
    PathCompare p r true = (ecmpCompare p r).getD 0 ∧
    (PathCompare p r true = 0 →
      p.IsFeasible = r.IsFeasible ∧
      p.attr.local_pref = r.attr.local_pref ∧
      p.attr.sequence_number = r.attr.sequence_number ∧
      pathLlgrStale p = pathLlgrStale r ∧
      (¬(p.attr.origin_vn_path = true ∧ r.attr.origin_vn_path = true) →
        p.attr.as_path_count = r.attr.as_path_count) ∧
      p.attr.origin = r.attr.origin ∧
      (p.attr.neighbor_as ≠ 0 → p.attr.neighbor_as = r.attr.neighbor_as →
        p.attr.med = r.attr.med)) := by
  refine ⟨pathCompare_true p r, fun h => ?_⟩
  have he : ecmpCompare p r = none := ecmpCompare_none_of_zero h
  unfold ecmpCompare at he
  obtain ⟨h1, he⟩ := cascade_eq_none.mp he
  obtain ⟨h2, he⟩ := cascade_eq_none.mp he
  obtain ⟨h3, he⟩ := cascade_eq_none.mp he
  obtain ⟨h4, he⟩ := cascade_eq_none.mp he
  obtain ⟨h5, he⟩ := cascade_eq_none.mp he
  obtain ⟨h6, h7⟩ := cascade_eq_none.mp he
  refine ⟨(keyCompareBool_eq_none.mp h1).symm, (keyCompare_eq_none.mp h2).symm,
    (keyCompare_eq_none.mp h3).symm, keyCompareBool_eq_none.mp h4,
    ?_, keyCompare_eq_none.mp h6, ?_⟩
  · intro hno
    have hcond : (!p.attr.origin_vn_path || !r.attr.origin_vn_path) = true := by
      cases hp1 : p.attr.origin_vn_path <;>
        cases hr1 : r.attr.origin_vn_path <;> simp_all
    rw [if_pos hcond] at h5
    exact keyCompare_eq_none.mp h5
  · intro hn hnas
    have hcond : (p.attr.neighbor_as != 0 &&
        (p.attr.neighbor_as == r.attr.neighbor_as)) = true := by
      simp only [Bool.and_eq_true, bne_iff_ne, ne_eq, beq_iff_eq]
      exact ⟨hn, hnas⟩
    rw [if_pos hcond] at h7
    exact keyCompare_eq_none.mp h7

/-! ### Evaluating the cascade under pointwise agreement -/

theorem ecmpCompare_reduce {p r : BgpPath}
    (h1 : p.IsFeasible = r.IsFeasible)
    (h2 : p.attr.local_pref = r.attr.local_pref)
    (h3 : p.attr.sequence_number = r.attr.sequence_number)
    (h4 : pathLlgrStale p = pathLlgrStale r) :
    ecmpCompare p r =
      cascade (if (!p.attr.origin_vn_path || !r.attr.origin_vn_path) = true then
                 keyCompare p.attr.as_path_count r.attr.as_path_count
               else none)
       (cascade (keyCompare p.attr.origin r.attr.origin)
        (if (p.attr.neighbor_as != 0 &&
             (p.attr.neighbor_as == r.attr.neighbor_as)) = true then
           keyCompare p.attr.med r.attr.med
         else none)) := by
  unfold ecmpCompare
  rw [h1, h2, h3, h4, keyCompareBool_self, keyCompare_self, keyCompare_self,
      keyCompareBool_self]
  rfl

theorem ecmpCompare_none_of_agree {p r : BgpPath}
    (h1 : p.IsFeasible = r.IsFeasible)
    (h2 : p.attr.local_pref = r.attr.local_pref)
    (h3 : p.attr.sequence_number = r.attr.sequence_number)
    (h4 : pathLlgrStale p = pathLlgrStale r)
    (h5 : (if (!p.attr.origin_vn_path || !r.attr.origin_vn_path) = true then
             keyCompare p.attr.as_path_count r.attr.as_path_count
           else none) = none)
    (h6 : p.attr.origin = r.attr.origin)
    (h7 : (if (p.attr.neighbor_as != 0 &&
               (p.attr.neighbor_as == r.attr.neighbor_as)) = true then
             keyCompare p.attr.med r.attr.med
           else none) = none) :
    ecmpCompare p r = none := by
  rw [ecmpCompare_reduce h1 h2 h3 h4, h5, cascade_none, h6, keyCompare_self,
      cascade_none, h7]

theorem as_path_component_none {p r : BgpPath}
    (h : ¬(p.attr.origin_vn_path = true ∧ r.attr.origin_vn_path = true) →
         p.attr.as_path_count = r.attr.as_path_count) :
    (if (!p.attr.origin_vn_path || !r.attr.origin_vn_path) = true then
       keyCompare p.attr.as_path_count r.attr.as_path_count
     else none) = none := by
  by_cases hb : (!p.attr.origin_vn_path || !r.attr.origin_vn_path) = true
  · rw [if_pos hb]
    have hno : ¬(p.attr.origin_vn_path = true ∧ r.attr.origin_vn_path = true) := by
      intro hand
      rw [hand.1, hand.2] at hb
      simp at hb
    rw [h hno, keyCompare_self]
  · rw [if_neg hb]

theorem med_component_none {p r : BgpPath}
    (h : (p.attr.neighbor_as ≠ 0 ∧ p.attr.neighbor_as = r.attr.neighbor_as) →
         p.attr.med = r.attr.med) :
    (if (p.attr.neighbor_as != 0 &&
        (p.attr.neighbor_as == r.attr.neighbor_as)) = true then
       keyCompare p.attr.med r.attr.med
     else none) = none := by
  by_cases hg : (p.attr.neighbor_as != 0 &&
      (p.attr.neighbor_as == r.attr.neighbor_as)) = true
  · rw [if_pos hg]
    have hg' : p.attr.neighbor_as ≠ 0 ∧
        p.attr.neighbor_as = r.attr.neighbor_as := by
      simpa only [Bool.and_eq_true, bne_iff_ne, ne_eq, beq_iff_eq] using hg
    rw [h hg', keyCompare_self]
  · rw [if_neg hg]

/-! ### C4: MED gating -/

/-- C4: MED participates in the comparison only when both paths carry the
same non-empty neighbor-AS. With the earlier criteria agreeing: if the
neighbor-AS is absent or differs, paths with different MED compare equal
(under `allow_ecmp`, where MED is the last criterion); if the gate holds,
the lower MED wins. -/
theorem pathCompare_med_gating (p r : BgpPath)
    (h1 : p.IsFeasible = r.IsFeasible)
    (h2 : p.attr.local_pref = r.attr.local_pref)
    (h3 : p.attr.sequence_number = r.attr.sequence_number)
    (h4 : pathLlgrStale p = pathLlgrStale r)
    (h5 : ¬(p.attr.origin_vn_path = true ∧ r.attr.origin_vn_path = true) →
          p.attr.as_path_count = r.attr.as_path_count)
    (h6 : p.attr.origin = r.attr.origin) :
    ((p.attr.neighbor_as = 0 ∨ p.attr.neighbor_as ≠ r.attr.neighbor_as) →
      p.attr.med ≠ r.attr.med → PathCompare p r true = 0) ∧
    (p.attr.neighbor_as ≠ 0 → p.attr.neighbor_as = r.attr.neighbor_as →
      p.attr.med < r.attr.med → PathCompare p r true = -1) := by
  have h5' := as_path_component_none h5
  constructor
  · intro hgate _hdiff
    have h7' : (if (p.attr.neighbor_as != 0 &&
        (p.attr.neighbor_as == r.attr.neighbor_as)) = true then
        keyCompare p.attr.med r.attr.med else none) = none := by
      have hcf : (p.attr.neighbor_as != 0 &&
          (p.attr.neighbor_as == r.attr.neighbor_as)) = false := by
        rcases hgate with hz | hne
        · rw [hz]
          rfl
        · have hb : (p.attr.neighbor_as == r.attr.neighbor_as) = false :=
            beq_eq_false_iff_ne.mpr hne
          rw [hb, Bool.and_false]
      rw [hcf]
      simp
    rw [pathCompare_true, ecmpCompare_none_of_agree h1 h2 h3 h4 h5' h6 h7']
    rfl
  · intro hn hnas hlt
    have hcond : (p.attr.neighbor_as != 0 &&
        (p.attr.neighbor_as == r.attr.neighbor_as)) = true := by
      simp only [Bool.and_eq_true, bne_iff_ne, ne_eq, beq_iff_eq]
      exact ⟨hn, hnas⟩
    rw [pathCompare_true, ecmpCompare_reduce h1 h2 h3 h4, h5', cascade_none,
        h6, keyCompare_self, cascade_none, if_pos hcond, keyCompare_lt hlt]
    rfl

/-! ### C5: service-chain deferral of AS-path length -/

/-- C5: when both paths carry the service-chain origin marker, AS-path length
is skipped at rule 5 and compared only at the deferred rule 9: with all
other pre-ECMP criteria equal and a shorter AS path on the left, the two
paths are equal under `allow_ecmp = true` but the left one wins under
`allow_ecmp = false`; when at least one path lacks the marker, AS-path
length decides already at the early step, even under `allow_ecmp = true`. -/
theorem pathCompare_service_chain_deferral (p r : BgpPath)
    (h1 : p.IsFeasible = r.IsFeasible)
    (h2 : p.attr.local_pref = r.attr.local_pref)
    (h3 : p.attr.sequence_number = r.attr.sequence_number)
    (h4 : pathLlgrStale p = pathLlgrStale r)
    (hlt : p.attr.as_path_count < r.attr.as_path_count) :
    (p.attr.origin_vn_path = true → r.attr.origin_vn_path = true →
      p.attr.origin = r.attr.origin →
      ((p.attr.neighbor_as ≠ 0 ∧ p.attr.neighbor_as = r.attr.neighbor_as) →
        p.attr.med = r.attr.med) →
      PathCompare p r true = 0 ∧ PathCompare p r false = -1) ∧
    (¬(p.attr.origin_vn_path = true ∧ r.attr.origin_vn_path = true) →
      PathCompare p r true = -1) := by
  constructor
  · intro hovp1 hovp2 h6 hmed
    have h5' : (if (!p.attr.origin_vn_path || !r.attr.origin_vn_path) = true then
        keyCompare p.attr.as_path_count r.attr.as_path_count else none) = none := by
      have hc : (!p.attr.origin_vn_path || !r.attr.origin_vn_path) = false := by
        rw [hovp1, hovp2]
        rfl
      rw [hc]
      simp
    have h7' := med_component_none hmed
    have hecmp : ecmpCompare p r = none :=
      ecmpCompare_none_of_agree h1 h2 h3 h4 h5' h6 h7'
    constructor
    · rw [pathCompare_true, hecmp]
      rfl
    · have hc2 : (p.attr.origin_vn_path && r.attr.origin_vn_path) = true := by
        rw [hovp1, hovp2]
        rfl
      have hmid : midCompare p r = some (-1) := by
        unfold midCompare scDeferredAsPath
        rw [if_pos hc2, keyCompare_lt hlt]
        rfl
      have himpl : PathCompareImpl p r false = some (-1) := by
        unfold PathCompareImpl
        rw [hecmp, hmid]
        rfl
      unfold PathCompare
      rw [himpl]
      rfl
  · intro hno
    have hc : (!p.attr.origin_vn_path || !r.attr.origin_vn_path) = true := by
      cases hx : p.attr.origin_vn_path <;> cases hy : r.attr.origin_vn_path <;>
        simp_all
    rw [pathCompare_true, ecmpCompare_reduce h1 h2 h3 h4, if_pos hc,
        keyCompare_lt hlt]
    rfl

/-! ### C6: locally generated preference -/

/-- C6 (amended): two paths that agree on feasibility, local-pref, sequence
number, LLGR-stale status, AS-path length, origin and MED, where the first
is peerless (locally generated) and the second has a peer, compare negative
(peerless wins) under `allow_ecmp = false`. -/
theorem pathCompare_local_path_preferred (p r : BgpPath)
    (h1 : p.IsFeasible = r.IsFeasible)
    (h2 : p.attr.local_pref = r.attr.local_pref)
    (h3 : p.attr.sequence_number = r.attr.sequence_number)
    (h4 : pathLlgrStale p = pathLlgrStale r)
    (h5 : p.attr.as_path_count = r.attr.as_path_count)
    (h6 : p.attr.origin = r.attr.origin)
    (h7 : p.attr.med = r.attr.med)
    (hp : p.peer = Option.none)
    (hr : r.peer.isSome = true) :
    PathCompare p r false = -1 := by
  have h5' : (if (!p.attr.origin_vn_path || !r.attr.origin_vn_path) = true then
      keyCompare p.attr.as_path_count r.attr.as_path_count else none) = none := by
    rw [h5, keyCompare_self, ite_self]
  have h7' : (if (p.attr.neighbor_as != 0 &&
      (p.attr.neighbor_as == r.attr.neighbor_as)) = true then
      keyCompare p.attr.med r.attr.med else none) = none := by
    rw [h7, keyCompare_self, ite_self]
  have hecmp : ecmpCompare p r = none :=
    ecmpCompare_none_of_agree h1 h2 h3 h4 h5' h6 h7'
  obtain ⟨q, hq⟩ := Option.isSome_iff_exists.mp hr
  have hmid : midCompare p r = some (-1) := by
    unfold midCompare scDeferredAsPath
    rw [h5, keyCompare_self, ite_self, cascade_none, hp, hq]
    rfl
  have himpl : PathCompareImpl p r false = some (-1) := by
    unfold PathCompareImpl
    rw [hecmp, hmid]
    rfl
  unfold PathCompare
  rw [himpl]
  rfl

/-! ### C2: the source-classification tie-break -/

/-- C2 (amended): at the source-classification tie-break (all earlier
criteria equal, both paths alike in peer presence), the path whose source
enum has the HIGHER numeric tag compares as better: the code executes
`KEY_COMPARE(rhs.GetSource(), GetSource())`, reversing the order. -/
theorem pathCompare_source_higher_tag_wins (p r : BgpPath)
    (h1 : p.IsFeasible = r.IsFeasible)
    (h2 : p.attr.local_pref = r.attr.local_pref)
    (h3 : p.attr.sequence_number = r.attr.sequence_number)
    (h4 : pathLlgrStale p = pathLlgrStale r)
    (h5 : p.attr.as_path_count = r.attr.as_path_count)
    (h6 : p.attr.origin = r.attr.origin)
    (h7 : p.attr.med = r.attr.med)
    (hpeer : p.peer.isNone = r.peer.isNone)
    (hsrc : PathSource.toNat r.source < PathSource.toNat p.source) :
    PathCompare p r false = -1 := by
  have h5' : (if (!p.attr.origin_vn_path || !r.attr.origin_vn_path) = true then
      keyCompare p.attr.as_path_count r.attr.as_path_count else none) = none := by
    rw [h5, keyCompare_self, ite_self]
  have h7' : (if (p.attr.neighbor_as != 0 &&
      (p.attr.neighbor_as == r.attr.neighbor_as)) = true then
      keyCompare p.attr.med r.attr.med else none) = none := by
    rw [h7, keyCompare_self, ite_self]
  have hecmp : ecmpCompare p r = none :=
    ecmpCompare_none_of_agree h1 h2 h3 h4 h5' h6 h7'
  have hmid : midCompare p r = some (-1) := by
    unfold midCompare scDeferredAsPath
    rw [h5, keyCompare_self, ite_self, cascade_none, hpeer, boolCompare_self,
        cascade_none, keyCompare_lt hsrc]
  have himpl : PathCompareImpl p r false = some (-1) := by
    unfold PathCompareImpl
    rw [hecmp, hmid]
    rfl
  unfold PathCompare
  rw [himpl]
  rfl

/-! ### Concrete paths for counterexamples and witnesses -/

/-- A baseline attribute snapshot for concrete test paths. -/
def attrBase : BgpAttr :=
  { local_pref := 100, sequence_number := 0, origin := 0, as_path_count := 1,
    med := 0, neighbor_as := 0, communityContainsLlgrStale := false,
    origin_vn_path := false, originator_id := 0, cluster_list_length := 0 }

/-- A concrete EBGP peer. -/
def peerE : IPeer :=
  { isXmppPeer := false, peerType := PeerType.EBGP, bgp_identifier := 10,
    peer_key := some 1 }

/-- Peerless path with sequence number 1 (for the C6 counterexample). -/
def cexLocalA : BgpPath :=
  { peer := Option.none, path_id := 0, source := PathSource.BGP_XMPP,
    attr := { attrBase with sequence_number := 1 }, flags := 0,
    feasible := true, replicated := false }

/-- Peer-learned path with sequence number 2 (for the C6 counterexample). -/
def cexLocalB : BgpPath :=
  { peer := some peerE, path_id := 0, source := PathSource.BGP_XMPP,
    attr := { attrBase with sequence_number := 2 }, flags := 0,
    feasible := true, replicated := false }

/-- Peer-learned path identical to `cexLocalA` except for the peer. -/
def cexLocalC : BgpPath :=
  { peer := some peerE, path_id := 0, source := PathSource.BGP_XMPP,
    attr := { attrBase with sequence_number := 1 }, flags := 0,
    feasible := true, replicated := false }

/-- C6 counterexample: two equally feasible, equal-local-pref paths, the
first peerless and the second peer-learned, for which `PathCompare` is
positive (the peer-learned path's higher sequence number decides at rule 3
before peer presence is ever considered): the claim as stated is false. -/
theorem pathCompare_local_pref_only_counterexample :
    cexLocalA.IsFeasible = cexLocalB.IsFeasible ∧
    cexLocalA.attr.local_pref = cexLocalB.attr.local_pref ∧
    cexLocalA.peer = Option.none ∧
    cexLocalB.peer.isSome = true ∧
    PathCompare cexLocalA cexLocalB false = 1 := by
  decide

theorem pathCompare_local_path_preferred_witness :
    PathCompare cexLocalA cexLocalC false = -1 :=
  pathCompare_local_path_preferred cexLocalA cexLocalC rfl rfl rfl rfl rfl rfl
    rfl rfl rfl

/-- Peerless path with source `BGP_XMPP` (tag 1), for the C2 counterexample. -/
def cexSrcA : BgpPath :=
  { peer := Option.none, path_id := 0, source := PathSource.BGP_XMPP,
    attr := attrBase, flags := 0, feasible := true, replicated := false }

/-- The same path with source `ServiceChain` (tag 2). -/
def cexSrcB : BgpPath :=
  { peer := Option.none, path_id := 0, source := PathSource.ServiceChain,
    attr := attrBase, flags := 0, feasible := true, replicated := false }

/-- C2 counterexample: two paths equal on every earlier criterion (and both
peerless), where the left source tag (`BGP_XMPP` = 1) is numerically lower
than the right one (`ServiceChain` = 2), yet `PathCompare` is positive -
the lower-tag path compares as WORSE, refuting the claim that the lower
source tag value wins. -/
theorem pathCompare_source_lower_tag_counterexample :
    PathSource.toNat cexSrcA.source < PathSource.toNat cexSrcB.source ∧
    cexSrcA.IsFeasible = cexSrcB.IsFeasible ∧
    cexSrcA.attr.local_pref = cexSrcB.attr.local_pref ∧
    cexSrcA.attr.sequence_number = cexSrcB.attr.sequence_number ∧
    pathLlgrStale cexSrcA = pathLlgrStale cexSrcB ∧
    cexSrcA.attr.as_path_count = cexSrcB.attr.as_path_count ∧
    cexSrcA.attr.origin = cexSrcB.attr.origin ∧
    cexSrcA.attr.med = cexSrcB.attr.med ∧
    cexSrcA.peer.isNone = cexSrcB.peer.isNone ∧
    PathCompare cexSrcA cexSrcB false = 1 := by
  decide

theorem pathCompare_source_higher_tag_wins_witness :
    PathCompare cexSrcB cexSrcA false = -1 :=
  pathCompare_source_higher_tag_wins cexSrcB cexSrcA rfl rfl rfl rfl rfl rfl
    rfl rfl (by decide)

/-- Paths differing in MED with differing neighbor-AS (C4 witness). -/
def cexMedA : BgpPath :=
  { peer := some peerE, path_id := 0, source := PathSource.BGP_XMPP,
    attr := { attrBase with med := 5, neighbor_as := 7 }, flags := 0,
    feasible := true, replicated := false }

/-- Second path for the C4 witness: different MED, different neighbor-AS. -/
def cexMedB : BgpPath :=
  { peer := some peerE, path_id := 0, source := PathSource.BGP_XMPP,
    attr := { attrBase with med := 9, neighbor_as := 8 }, flags := 0,
    feasible := true, replicated := false }

theorem pathCompare_med_gating_witness :
    PathCompare cexMedA cexMedB true = 0 :=
  (pathCompare_med_gating cexMedA cexMedB rfl rfl rfl rfl (fun _ => rfl)
    rfl).1 (Or.inr (by decide)) (by decide)

/-- Service-chain path with AS-path length 1 (C5 witness). -/
def cexScA : BgpPath :=
  { peer := Option.none, path_id := 0, source := PathSource.ServiceChain,
    attr := { attrBase with origin_vn_path := true, as_path_count := 1 },
    flags := 0, feasible := true, replicated := false }

/-- Service-chain path with AS-path length 3 (C5 witness). -/
def cexScB : BgpPath :=
  { peer := Option.none, path_id := 0, source := PathSource.ServiceChain,
    attr := { attrBase with origin_vn_path := true, as_path_count := 3 },
    flags := 0, feasible := true, replicated := false }

theorem pathCompare_service_chain_deferral_witness :
    PathCompare cexScA cexScB true = 0 ∧ PathCompare cexScA cexScB false = -1 :=
  (pathCompare_service_chain_deferral cexScA cexScB rfl rfl rfl rfl
    (by decide)).1 rfl rfl rfl (fun _ => rfl)

theorem pathCompare_ecmp_monotonic_witness :
    cexMedA.attr.origin = cexMedB.attr.origin :=
  ((pathCompare_ecmp_monotonic cexMedA cexMedB).2 (by decide)).2.2.2.2.2.1

/-! ### C7: UpdatePeerRefCount -/

/-- The per-peer path counters mutated by `UpdatePeerRefCount`
(`UpdateTotalPathCount` / `UpdatePrimaryPathCount` targets). -/
structure PeerCounters where
  total_path_count : Int
  primary_path_count : Int
deriving DecidableEq

/-- `BgpPath::UpdatePeerRefCount(count)` as a state transformer on the
path's peer's counters: without a peer, return immediately; otherwise
adjust the total-path counter, then return early unless the source is
`BGP_XMPP` and the path is not replicated, in which case also adjust the
primary-path counter. -/
def UpdatePeerRefCount (p : BgpPath) (count : Int) (c : PeerCounters) :
    PeerCounters :=
  match p.peer with
  | Option.none => c
  | some _ =>
    let c1 : PeerCounters :=
      { c with total_path_count := c.total_path_count + count }
    if p.source ≠ PathSource.BGP_XMPP ∨ p.IsReplicated = true then c1
    else { c1 with primary_path_count := c1.primary_path_count + count }

/-- C7: `UpdatePeerRefCount(count)` is a no-op without a peer; with a peer
the result is fully determined: the total-path counter moves by `count`,
and the primary-path counter moves by `count` exactly when the source is
`BGP_XMPP` and the path is not replicated (no other state changes, and the
operation only produces this counter state). -/
theorem updatePeerRefCount_spec (p : BgpPath) (count : Int) (c : PeerCounters) :
    (p.peer = Option.none → UpdatePeerRefCount p count c = c) ∧
    (p.peer.isSome = true →
      UpdatePeerRefCount p count c =
        { total_path_count := c.total_path_count + count,
          primary_path_count := c.primary_path_count +
            (if p.source = PathSource.BGP_XMPP ∧ p.IsReplicated = false then
               count
             else 0) }) := by
  constructor
  · intro hp
    unfold UpdatePeerRefCount
    rw [hp]
  · intro hp
    obtain ⟨q, hq⟩ := Option.isSome_iff_exists.mp hp
    by_cases hc : p.source ≠ PathSource.BGP_XMPP ∨ p.IsReplicated = true
    · have hneg : ¬(p.source = PathSource.BGP_XMPP ∧
          p.IsReplicated = false) := by
        rcases hc with h | h
        · exact fun hand => h hand.1
        · intro hand
          rw [hand.2] at h
          exact Bool.false_ne_true h
      simp [UpdatePeerRefCount, hq, hc, hneg]
    · push_neg at hc
      have hx : p.source = PathSource.BGP_XMPP ∧ p.IsReplicated = false := by
        refine ⟨hc.1, ?_⟩
        cases hrep : p.IsReplicated
        · rfl
        · exact absurd hrep hc.2
      have hc' : ¬(p.source ≠ PathSource.BGP_XMPP ∨ p.IsReplicated = true) := by
        rw [hx.1]
        simp [hx.2]
      simp [UpdatePeerRefCount, hq, hc', hx]

theorem updatePeerRefCount_spec_witness :
    UpdatePeerRefCount cexLocalA 3 ⟨1, 2⟩ = ⟨1, 2⟩ ∧
    UpdatePeerRefCount cexLocalC 3 ⟨1, 2⟩ = ⟨4, 5⟩ := by
  constructor
  · exact (updatePeerRefCount_spec cexLocalA 3 ⟨1, 2⟩).1 rfl
  · rw [(updatePeerRefCount_spec cexLocalC 3 ⟨1, 2⟩).2 rfl]
    decide

/-! ### C8: flag rendering -/

/-- Name of one `PathFlag` enumerator: the `switch` body of
`GetFlagsStringList` (the final branch is unreachable for values of the
flag enum, which the C++ switch covers exhaustively). -/
def pathFlagName (f : Nat) : String :=
  if f = AsPathLooped then "AsPathLooped"
  else if f = NoNeighborAs then "NoNeighborAs"
  else if f = Stale then "Stale"
  else if f = NoTunnelEncap then "NoTunnelEncap"
  else if f = OriginatorIdLooped then "OriginatorIdLooped"
  else if f = ResolveNexthop then "ResolveNexthop"
  else if f = ResolvedPath then "ResolvedPath"
  else if f = RoutingPolicyReject then "RoutingPolicyReject"
  else if f = LlgrStale then "LlgrStale"
  else ""

/-- `BgpPath::GetFlagsStringList`: an all-zero bitset renders as `["None"]`;
otherwise collect the set flag bits in declaration order and map them to
their names (the code's two phases: the flag vector, then the switch). -/
def GetFlagsStringList (flags : Nat) : List String :=
  if flags = 0 then ["None"]
  else
    (((if flags &&& AsPathLooped ≠ 0 then [AsPathLooped] else []) ++
      (if flags &&& NoNeighborAs ≠ 0 then [NoNeighborAs] else []) ++
      (if flags &&& Stale ≠ 0 then [Stale] else []) ++
      (if flags &&& NoTunnelEncap ≠ 0 then [NoTunnelEncap] else []) ++
      (if flags &&& OriginatorIdLooped ≠ 0 then [OriginatorIdLooped] else []) ++
      (if flags &&& ResolveNexthop ≠ 0 then [ResolveNexthop] else []) ++
      (if flags &&& ResolvedPath ≠ 0 then [ResolvedPath] else []) ++
      (if flags &&& RoutingPolicyReject ≠ 0 then [RoutingPolicyReject] else []) ++
      (if flags &&& LlgrStale ≠ 0 then [LlgrStale] else [])).map pathFlagName)

/-- The flag table in declaration order, pairing each bit with its label:
the spec's expected rendering order. -/
def flagTable : List (Nat × String) :=
  [(AsPathLooped, "AsPathLooped"), (NoNeighborAs, "NoNeighborAs"),
   (Stale, "Stale"), (NoTunnelEncap, "NoTunnelEncap"),
   (OriginatorIdLooped, "OriginatorIdLooped"),
   (ResolveNexthop, "ResolveNexthop"), (ResolvedPath, "ResolvedPath"),
   (RoutingPolicyReject, "RoutingPolicyReject"), (LlgrStale, "LlgrStale")]

/-- The claim's expected rendering: exactly the names of the set flags, in
declaration order; the single-element list `["None"]` when no flag is set. -/
def claimedFlagsStringList (flags : Nat) : List String :=
  let names := (flagTable.filter fun pr => flags &&& pr.fst != 0).map Prod.snd
  if names = [] then ["None"] else names

set_option maxRecDepth 4000

/-- C8: over the whole declared flag bitset (all 2^9 subsets of the nine
flags), `GetFlagsStringList` returns exactly the names of the set flags in
declaration order, and `["None"]` when no flag is set. -/
theorem getFlagsStringList_spec :
    ∀ f : Fin 512, GetFlagsStringList f.val = claimedFlagsStringList f.val := by
  decide

/-! ### C9: PathSameNeighborAs -/

/-- `BgpPath::PathSameNeighborAs`: false without a peer or with a non-EBGP
session on either side; otherwise compare the snapshots' neighbor-AS
values with equality. -/
def PathSameNeighborAs (p r : BgpPath) : Bool :=
  match p.peer with
  | Option.none => false
  | some pq =>
    if pq.peerType ≠ PeerType.EBGP then false
    else
      match r.peer with
      | Option.none => false
      | some rq =>
        if rq.peerType ≠ PeerType.EBGP then false
        else p.attr.neighbor_as == r.attr.neighbor_as

/-- C9: `PathSameNeighborAs` is true iff both paths have a peer, both peers'
sessions are EBGP, and the neighbor-AS values are equal (two absent, zero,
values count as equal); a missing peer or an internal session on either
side forces false regardless of the values. -/
theorem pathSameNeighborAs_spec (p r : BgpPath) :
    PathSameNeighborAs p r = true ↔
      (∃ pq rq, p.peer = some pq ∧ r.peer = some rq ∧
        pq.peerType = PeerType.EBGP ∧ rq.peerType = PeerType.EBGP ∧
        p.attr.neighbor_as = r.attr.neighbor_as) := by
  rcases hp : p.peer with _ | pq <;> rcases hr : r.peer with _ | rq
  · simp [PathSameNeighborAs, hp]
  · simp [PathSameNeighborAs, hp]
  · simp [PathSameNeighborAs, hp, hr, ite_self]
  · simp only [PathSameNeighborAs, hp, hr]
    by_cases h1 : pq.peerType = PeerType.EBGP
    · by_cases h2 : rq.peerType = PeerType.EBGP
      · simp [h1, h2]
      · simp [h1, h2]
    · simp [h1]

end ContrailBgp
